import Mathlib

/-!
Verification of the IP-detector backend (`backend/server.js`).

The development shallowly embeds the server's core logic:
  * `deriveIPAnalysisResult` — the pure classifier (server.js lines 140-263);
  * the cache freshness decision of `POST /api/analyze-ips` (lines 289-328);
  * the cache reconstruction of geo/threat inputs (lines 298-326);
  * the `ip_cache` upsert (lines 363-403);
  * the per-IP processing loop of the endpoint (lines 266-424).

Conventions of the embedding:
  * JavaScript objects become structures; a field that may be `undefined`
    or `null` becomes an `Option`.
  * Instants (wall-clock times, `Date` values, ISO-8601 strings carrying a
    date) are modelled as `Nat` milliseconds since the epoch.
    `new Date(x).toISOString()` parses and re-serialises a date, which is
    the identity on the underlying instant, so it is embedded as `x` itself.
  * JavaScript string truthiness (`s || d` falls back on `undefined`,
    `null` and `""`) is embedded by `orDefault`.
  * Wall-clock reads (`Date.now()`, `new Date()`, SQL `CURRENT_TIMESTAMP`)
    become an explicit `now : Nat` argument.
-/

/-- JavaScript `s || d` for an optional string field: falls back to `d`
when the field is absent (`undefined`/`null`) or the empty string (both
falsy in JavaScript). -/
def orDefault (s : Option String) (d : String) : String :=
  match s with
  | none => d
  | some "" => d
  | some x => x

/-- JavaScript `String.prototype.replace(/\s/g, '_')`: every whitespace
character replaced by an underscore.  (Written over the character list so
that it reduces inside the kernel.) -/
def underscoreWs (s : String) : String :=
  String.mk (s.data.map (fun c => if c.isWhitespace then '_' else c))

/-- JavaScript `String.prototype.toLowerCase()` (the category names the
classifier compares are ASCII, where per-character lowering coincides with
the JavaScript semantics).  (Written over the character list so that it
reduces inside the kernel.) -/
def jsToLower (s : String) : String :=
  String.mk (s.data.map Char.toLower)

/-- The raw geo-IP object (from ip-api.com or reconstructed from cache).
Fields are the ones `server.js` reads: `status, message, country,
regionName, city, isp, org, timezone, lat, lon, proxy, hosting, query,
query_time`.  `lat`/`lon` are only passed through to the cache, so their
numeric type is immaterial; `proxy`/`hosting` are read through `||`/truthy
positions, so they collapse to `Bool`. -/
structure GeoData where
  status : Option String := none
  message : Option String := none
  country : Option String := none
  regionName : Option String := none
  city : Option String := none
  isp : Option String := none
  org : Option String := none
  timezone : Option String := none
  lat : Option Int := none
  lon : Option Int := none
  proxy : Bool := false
  hosting : Bool := false
  query : Option String := none
  query_time : Option Nat := none
deriving DecidableEq, Repr

/-- The threat object built by `fetchAbuseIPDBThreatIntelligence` or
reconstructed from the cache: `abuseConfidenceScore, categories,
lastReportedAt, isWhitelisted` (`source` and `totalReports` are never read
by the classifier and are omitted).  `categories := none` models an absent
or non-array field (the code guards with `Array.isArray`). -/
structure ThreatData where
  abuseConfidenceScore : Option Nat := none
  categories : Option (List String) := none
  lastReportedAt : Option Nat := none
  isWhitelisted : Bool := false
deriving DecidableEq, Repr

/-- The `details` object of an analysis result (server.js lines 147-155,
mutated by the category derivation and the lastSeen update). -/
structure Details where
  malware : Bool := false
  phishing : Bool := false
  spam : Bool := false
  botnet : Bool := false
  proxy : Bool := false
  tor : Bool := false
  categories : List String := []
  lastSeen : Option Nat := none
deriving DecidableEq, Repr

/-- The `IPAnalysisResult` object returned by `deriveIPAnalysisResult`
and pushed into the endpoint's response list. -/
structure AnalysisResult where
  ip : String
  status : String
  threatLevel : String
  threatType : String
  location : String
  isp : String
  confidence : Nat
  details : Details
  lastSeen : Option Nat
  reputation : Int
deriving DecidableEq, Repr

/-- `location` display string (server.js line 256):
``${geoIpData.city || 'Unknown'}, ${geoIpData.country || 'Unknown'}``. -/
def locationOf (g : GeoData) : String :=
  orDefault g.city "Unknown" ++ ", " ++ orDefault g.country "Unknown"

/-- Intermediate state of the classifier after the threat-data branch
(server.js lines 166-234): the mutable locals `status, threatLevel,
threatType, confidence, reputation, details` at the end of the
`if (abuseIpDbData)` block. -/
structure ThreatAssessment where
  status : String
  threatLevel : String
  threatType : String
  confidence : Nat
  reputation : Int
  details : Details
deriving DecidableEq, Repr

/-- Fallback tag when no known category matches (server.js line 224):
``categories[0] ? categories[0].replace(/\s/g, '_') : 'unknown_category'``
applied to the lowercased category list (an empty first category is falsy
in JavaScript, hence the `"unknown_category"` fallback). -/
def fallbackCategoryTag (low : List String) : String :=
  match low.head? with
  | some c => if c = "" then "unknown_category" else underscoreWs c
  | none => "unknown_category"

/-- The mutable locals `(status, threatLevel, threatType, confidence,
reputation)` after the whitelist/threshold chain of
`deriveIPAnalysisResult` (server.js lines 167-188): the score assignment
and its inverse reputation, then the `isWhitelisted` override, then the
confidence thresholds, highest first. -/
structure BaseClass where
  status : String
  threatLevel : String
  threatType : String
  confidence : Nat
  reputation : Int
deriving DecidableEq, Repr

/-- Server.js lines 167-188: `confidence = abuseConfidenceScore || 0`,
`reputation = 100 - confidence`, then the whitelist override / threshold
chain (only the whitelist branch overwrites confidence and reputation;
at this point `threatType` is still `"none"` except when whitelisted). -/
def whitelistOrThresholds (t : ThreatData) : BaseClass :=
  let confidence0 : Nat := t.abuseConfidenceScore.getD 0
  let reputation0 : Int := 100 - (confidence0 : Int)
  if t.isWhitelisted then
    { status := "safe", threatLevel := "low", threatType := "whitelisted",
      confidence := 0, reputation := 100 }
  else if confidence0 ≥ 90 then
    { status := "malicious", threatLevel := "critical", threatType := "none",
      confidence := confidence0, reputation := reputation0 }
  else if confidence0 ≥ 70 then
    { status := "malicious", threatLevel := "high", threatType := "none",
      confidence := confidence0, reputation := reputation0 }
  else if confidence0 ≥ 40 then
    { status := "suspicious", threatLevel := "medium", threatType := "none",
      confidence := confidence0, reputation := reputation0 }
  else if confidence0 > 0 then
    { status := "suspicious", threatLevel := "low", threatType := "none",
      confidence := confidence0, reputation := reputation0 }
  else
    { status := "safe", threatLevel := "low", threatType := "none",
      confidence := confidence0, reputation := reputation0 }

/-- Server.js lines 196-229: the category-based threatType derivation and
the `generic_suspicious` fallback, returning the final `threatType` and
the updated `details`.  `threatType1`/`confidence1` are the locals after
the whitelist/threshold chain; `details1` already carries the copied
`categories` list.  The membership tests run on the lowercased list. -/
def deriveThreatTag (threatType1 : String) (confidence1 : Nat) (details1 : Details)
    (cats : List String) : String × Details :=
  let low : List String := cats.map jsToLower
  if cats.length > 0 then
    if low.contains "malware" then ("malware", { details1 with malware := true })
    else if low.contains "phishing" then ("phishing", { details1 with phishing := true })
    else if low.contains "spam" then ("spam", { details1 with spam := true })
    else if low.contains "botnet" then ("botnet", { details1 with botnet := true })
    else if low.contains "proxy" then ("proxy", { details1 with proxy := true })
    else if low.contains "tor exit node" then ("tor", { details1 with tor := true })
    else (fallbackCategoryTag low, details1)
  else if confidence1 > 0 ∧ threatType1 = "none" then ("generic_suspicious", details1)
  else (threatType1, details1)

/-- The `if (abuseIpDbData) { ... }` block of `deriveIPAnalysisResult`
(server.js lines 166-234), transcribed with the same sequencing:
score/reputation assignment and whitelist/threshold chain
(`whitelistOrThresholds`), category copy, category-based threatType
derivation (`deriveThreatTag`, which runs after — and can overwrite —
the whitelist branch), and the lastSeen update. -/
def assessThreat (details0 : Details) (t : ThreatData) : ThreatAssessment :=
  let b := whitelistOrThresholds t
  let cats : List String := t.categories.getD []
  let details1 : Details := { details0 with categories := cats }
  let tag := deriveThreatTag b.threatType b.confidence details1 cats
  let details3 : Details :=
    match t.lastReportedAt with
    | some l => { tag.2 with lastSeen := some l }
    | none => tag.2
  { status := b.status, threatLevel := b.threatLevel, threatType := tag.1,
    confidence := b.confidence, reputation := b.reputation, details := details3 }

/-- The initial `details` object (server.js lines 147-155): all category
flags clear, `proxy` from `geoIpData.proxy || false`, `tor` from
`geoIpData.query === 'Tor'`, empty categories. -/
def derivedDetails (g : GeoData) : Details :=
  { malware := false, phishing := false, spam := false, botnet := false,
    proxy := g.proxy, tor := decide (g.query = some "Tor"),
    categories := [], lastSeen := none }

/-- `deriveIPAnalysisResult` (server.js lines 140-263).  `now` is the
wall clock read by `new Date()` at line 260. -/
def deriveIPAnalysisResult (ip : String) (geoIpData : GeoData)
    (abuseIpDbData : Option ThreatData) (now : Nat) : AnalysisResult :=
  let details0 : Details := derivedDetails geoIpData
  if geoIpData.status = some "fail" then
    { ip := ip, status := "error", threatLevel := "unknown",
      threatType := orDefault geoIpData.message "Geo-IP API Error",
      location := locationOf geoIpData, isp := orDefault geoIpData.isp "Unknown",
      confidence := 0, details := details0,
      lastSeen := some (details0.lastSeen.getD (geoIpData.query_time.getD now)),
      reputation := 0 }
  else
    match abuseIpDbData with
    | some t =>
      let a := assessThreat details0 t
      { ip := ip, status := a.status, threatLevel := a.threatLevel,
        threatType := a.threatType, location := locationOf geoIpData,
        isp := orDefault geoIpData.isp "Unknown", confidence := a.confidence,
        details := a.details,
        lastSeen := some (a.details.lastSeen.getD (geoIpData.query_time.getD now)),
        reputation := a.reputation }
    | none =>
      if geoIpData.proxy || geoIpData.hosting then
        { ip := ip, status := "suspicious", threatLevel := "medium",
          threatType := if geoIpData.proxy then "proxy" else "hosting",
          location := locationOf geoIpData, isp := orDefault geoIpData.isp "Unknown",
          confidence := 50, details := details0,
          lastSeen := some (details0.lastSeen.getD (geoIpData.query_time.getD now)),
          reputation := 50 }
      else
        { ip := ip, status := "safe", threatLevel := "low", threatType := "none",
          location := locationOf geoIpData, isp := orDefault geoIpData.isp "Unknown",
          confidence := 0, details := details0,
          lastSeen := some (details0.lastSeen.getD (geoIpData.query_time.getD now)),
          reputation := 100 }

/-- `24 * 60 * 60 * 1000` (server.js line 289). -/
def TWENTY_FOUR_HOURS_MS : Nat := 24 * 60 * 60 * 1000

/-- A row of the `ip_cache` table, with the columns the endpoint reads
(server.js lines 282-287).  Timestamp columns are `Nat` instants;
`details` is the stored JSON blob (nullable column). -/
structure CacheRecord where
  ip_address : String
  country : Option String := none
  region : Option String := none
  city : Option String := none
  isp : Option String := none
  org : Option String := none
  timezone : Option String := none
  lat : Option Int := none
  lon : Option Int := none
  query_time : Option Nat := none
  status : String
  threat_level : String
  threat_type : String
  confidence : Nat
  details : Option Details := none
  last_seen : Option Nat := none
  reputation : Int
  threat_cached_at : Option Nat := none
deriving DecidableEq, Repr

/-- The freshness decision of the endpoint (server.js lines 289-328):
returns `(shouldFetchGeoIp, shouldFetchThreat)`.  Both start `true`; a
cache hit clears the geo flag unconditionally and clears the threat flag
iff `threat_cached_at` is non-null and
`Date.now() - new Date(threat_cached_at || 0).getTime()` is below the
24-hour window (signed comparison, as in JavaScript). -/
def freshnessGate (cached : Option CacheRecord) (now : Nat) : Bool × Bool :=
  match cached with
  | none => (true, true)
  | some rec =>
    let threatCacheAgeMs : Int :=
      (now : Int) - ((rec.threat_cached_at.getD 0 : Nat) : Int)
    let shouldFetchThreat : Bool :=
      !(rec.threat_cached_at.isSome && decide (threatCacheAgeMs < (TWENTY_FOUR_HOURS_MS : Int)))
    (false, shouldFetchThreat)

/-- Reconstruction of `geoIpData` from a cache row (server.js lines
298-313): status is assumed `"success"`, `hosting` is hardcoded `false`
(the column is not cached), and `query` is re-derived from the stored
`tor` flag. -/
def reconstructGeo (ip : String) (rec : CacheRecord) : GeoData :=
  { status := some "success", country := rec.country, regionName := rec.region,
    city := rec.city, isp := rec.isp, org := rec.org, timezone := rec.timezone,
    lat := rec.lat, lon := rec.lon,
    proxy := match rec.details with | some d => d.proxy | none => false,
    hosting := false,
    query := some (match rec.details with
      | some d => if d.tor then "Tor" else ip
      | none => ip),
    query_time := rec.query_time }

/-- Reconstruction of `abuseIpDbData` from a cache row when the threat
data is fresh (server.js lines 320-326): the whitelist flag is re-derived
from `threat_type = 'whitelisted'`. -/
def reconstructThreat (rec : CacheRecord) : ThreatData :=
  { abuseConfidenceScore := some rec.confidence,
    categories := some (match rec.details with | some d => d.categories | none => []),
    lastReportedAt := rec.last_seen,
    isWhitelisted := rec.threat_type = "whitelisted" }

/-- The row written by the `ip_cache` upsert for a processed IP
(server.js lines 363-403).  The `ON CONFLICT DO UPDATE` branch sets every
listed column from the new values and stamps `query_time` and
`threat_cached_at` with `CURRENT_TIMESTAMP`.

Modelled from the spec: the `ip_cache` DDL is not in the repository, so
the defaults the plain-`INSERT` branch gives the two timestamp columns
(which are absent from the column list) are unavailable; per the spec
(§3 lifecycle, §4.3 step 6, §9) every processed IP refreshes both
timestamps on every pass, including the first insert, so the insert
branch is modelled as stamping them with `CURRENT_TIMESTAMP` as well,
which makes both branches produce this same row. -/
def writeCacheRecord (ip : String) (g : GeoData) (r : AnalysisResult) (now : Nat) :
    CacheRecord :=
  { ip_address := ip, country := g.country, region := g.regionName,
    city := g.city, isp := g.isp, org := g.org, timezone := g.timezone,
    lat := g.lat, lon := g.lon, query_time := some now,
    status := r.status, threat_level := r.threatLevel, threat_type := r.threatType,
    confidence := r.confidence, details := some r.details, last_seen := r.lastSeen,
    reputation := r.reputation, threat_cached_at := some now }

/-- The cache table as a map from IP to its (unique) row. -/
def Store : Type := String → Option CacheRecord

/-- The `INSERT ... ON CONFLICT (ip_address) DO UPDATE` statement: the
row keyed by `ip` is inserted or replaced (last write wins), all other
rows are untouched. -/
def upsertCache (store : Store) (ip : String) (g : GeoData) (r : AnalysisResult)
    (now : Nat) : Store :=
  fun k => if k = ip then some (writeCacheRecord ip g r now) else store k

/-- The generic per-IP error result pushed by the `catch` block
(server.js lines 408-419).  The literal object carries a `details` with
only the six boolean flags; the absent `categories`/`lastSeen` keys are
embedded as `[]`/`none`. -/
def genericErrorResult (ip : String) : AnalysisResult :=
  { ip := ip, status := "error", threatLevel := "unknown",
    threatType := "Backend processing error", location := "Unknown",
    isp := "Unknown", confidence := 0,
    details := { malware := false, phishing := false, spam := false,
                 botnet := false, proxy := false, tor := false },
    lastSeen := none, reputation := 0 }

/-- The per-IP error result pushed when a fresh geo lookup fails
(server.js lines 337-348). -/
def geoFailResult (ip : String) (g : Option GeoData) : AnalysisResult :=
  { ip := ip, status := "error", threatLevel := "unknown",
    threatType := match g with
      | some gd => orDefault gd.message "Geo-IP API error"
      | none => "Geo-IP API error",
    location := "Unknown", isp := "Unknown", confidence := 0,
    details := { malware := false, phishing := false, spam := false,
                 botnet := false, proxy := false, tor := false },
    lastSeen := none, reputation := 0 }

/-- The external collaborators and fallible steps seen by one run of the
endpoint: the geo and threat fetchers (both catch their own errors and
surface `none`), and whether the two database statements reject (their
rejections are what the per-IP `try/catch` can catch). -/
structure Env where
  geoFetch : String → Option GeoData
  threatFetch : String → Option ThreatData
  selectFails : String → Bool
  insertFails : String → Bool
  now : Nat

/-- One iteration of the endpoint's `for (const ip of ipAddresses)` loop
(server.js lines 275-421): returns the results pushed for this IP (the
`catch` after a failed insert pushes a second result for the same IP)
and the store after the iteration. -/
def stepIP (env : Env) (store : Store) (ip : String) : List AnalysisResult × Store :=
  if env.selectFails ip then ([genericErrorResult ip], store)
  else
    match store ip with
    | some rec =>
      let g := reconstructGeo ip rec
      let t : Option ThreatData :=
        if (freshnessGate (some rec) env.now).2 then env.threatFetch ip
        else some (reconstructThreat rec)
      let r := deriveIPAnalysisResult ip g t env.now
      if env.insertFails ip then ([r, genericErrorResult ip], store)
      else ([r], upsertCache store ip g r env.now)
    | none =>
      match env.geoFetch ip with
      | none => ([geoFailResult ip none], store)
      | some g =>
        if g.status = some "fail" then ([geoFailResult ip (some g)], store)
        else
          let t := env.threatFetch ip
          let r := deriveIPAnalysisResult ip g t env.now
          if env.insertFails ip then ([r, genericErrorResult ip], store)
          else ([r], upsertCache store ip g r env.now)

/-- The whole loop over the request's IP list, threading the store. -/
def processIPs (env : Env) (store : Store) : List String → List AnalysisResult × Store
  | [] => ([], store)
  | ip :: rest =>
    let (rs, store1) := stepIP env store ip
    let (rest1, store2) := processIPs env store1 rest
    (rs ++ rest1, store2)

/-- `POST /api/analyze-ips` (server.js lines 266-424): `body` is the
parsed `ipAddresses` field (`none` models a missing or non-array value);
a missing, non-array or empty value yields the 400 response, anything
else the 200 response with the collected results. -/
def analyzeIPs (env : Env) (store : Store) (body : Option (List String)) :
    Except String (List AnalysisResult) × Store :=
  match body with
  | none => (.error "Please provide an array of IP addresses.", store)
  | some [] => (.error "Please provide an array of IP addresses.", store)
  | some ips =>
    let (rs, store1) := processIPs env store ips
    (.ok rs, store1)

/-! ### Helper lemmas -/

theorem derive_ok_eq (ip : String) (g : GeoData) (t : ThreatData) (now : Nat)
    (hg : ¬ g.status = some "fail") :
    deriveIPAnalysisResult ip g (some t) now =
      { ip := ip, status := (assessThreat (derivedDetails g) t).status,
        threatLevel := (assessThreat (derivedDetails g) t).threatLevel,
        threatType := (assessThreat (derivedDetails g) t).threatType,
        location := locationOf g, isp := orDefault g.isp "Unknown",
        confidence := (assessThreat (derivedDetails g) t).confidence,
        details := (assessThreat (derivedDetails g) t).details,
        lastSeen := some ((assessThreat (derivedDetails g) t).details.lastSeen.getD
          (g.query_time.getD now)),
        reputation := (assessThreat (derivedDetails g) t).reputation } := by
  simp [deriveIPAnalysisResult, hg, derivedDetails]

theorem assessThreat_status (d : Details) (t : ThreatData) :
    (assessThreat d t).status = (whitelistOrThresholds t).status := rfl

theorem assessThreat_threatLevel (d : Details) (t : ThreatData) :
    (assessThreat d t).threatLevel = (whitelistOrThresholds t).threatLevel := rfl

theorem assessThreat_confidence (d : Details) (t : ThreatData) :
    (assessThreat d t).confidence = (whitelistOrThresholds t).confidence := rfl

theorem assessThreat_reputation (d : Details) (t : ThreatData) :
    (assessThreat d t).reputation = (whitelistOrThresholds t).reputation := rfl

theorem whitelistOrThresholds_wl (t : ThreatData) (h : t.isWhitelisted = true) :
    whitelistOrThresholds t =
      { status := "safe", threatLevel := "low", threatType := "whitelisted",
        confidence := 0, reputation := 100 } := by
  simp [whitelistOrThresholds, h]

theorem whitelistOrThresholds_confidence (t : ThreatData) (h : t.isWhitelisted = false) :
    (whitelistOrThresholds t).confidence = t.abuseConfidenceScore.getD 0 := by
  unfold whitelistOrThresholds
  simp only [h, Bool.false_eq_true, if_false]
  split_ifs <;> rfl

theorem whitelistOrThresholds_threatType (t : ThreatData) (h : t.isWhitelisted = false) :
    (whitelistOrThresholds t).threatType = "none" := by
  unfold whitelistOrThresholds
  simp only [h, Bool.false_eq_true, if_false]
  split_ifs <;> rfl

theorem whitelistOrThresholds_reputation (t : ThreatData) (h : t.isWhitelisted = false) :
    (whitelistOrThresholds t).reputation = 100 - (t.abuseConfidenceScore.getD 0 : Int) := by
  unfold whitelistOrThresholds
  simp only [h, Bool.false_eq_true, if_false]
  split_ifs <;> rfl

theorem whitelistOrThresholds_congr (t1 t2 : ThreatData)
    (h1 : t1.isWhitelisted = t2.isWhitelisted)
    (h2 : t1.abuseConfidenceScore.getD 0 = t2.abuseConfidenceScore.getD 0) :
    whitelistOrThresholds t1 = whitelistOrThresholds t2 := by
  unfold whitelistOrThresholds
  rw [h1, h2]

theorem deriveThreatTag_fst_congr (tt : String) (c : Nat) (d1 d2 : Details)
    (cats : List String) :
    (deriveThreatTag tt c d1 cats).1 = (deriveThreatTag tt c d2 cats).1 := by
  unfold deriveThreatTag
  dsimp only
  split_ifs <;> rfl

/-- Precedence-resolved category hits, used to describe the flag updates
of `deriveThreatTag` in closed form. -/
def hitMalware (cats : List String) : Bool :=
  decide (cats.length > 0) && (cats.map jsToLower).contains "malware"

def hitPhishing (cats : List String) : Bool :=
  decide (cats.length > 0) && !(cats.map jsToLower).contains "malware"
    && (cats.map jsToLower).contains "phishing"

def hitSpam (cats : List String) : Bool :=
  decide (cats.length > 0) && !(cats.map jsToLower).contains "malware"
    && !(cats.map jsToLower).contains "phishing"
    && (cats.map jsToLower).contains "spam"

def hitBotnet (cats : List String) : Bool :=
  decide (cats.length > 0) && !(cats.map jsToLower).contains "malware"
    && !(cats.map jsToLower).contains "phishing"
    && !(cats.map jsToLower).contains "spam"
    && (cats.map jsToLower).contains "botnet"

def hitProxy (cats : List String) : Bool :=
  decide (cats.length > 0) && !(cats.map jsToLower).contains "malware"
    && !(cats.map jsToLower).contains "phishing"
    && !(cats.map jsToLower).contains "spam"
    && !(cats.map jsToLower).contains "botnet"
    && (cats.map jsToLower).contains "proxy"

def hitTor (cats : List String) : Bool :=
  decide (cats.length > 0) && !(cats.map jsToLower).contains "malware"
    && !(cats.map jsToLower).contains "phishing"
    && !(cats.map jsToLower).contains "spam"
    && !(cats.map jsToLower).contains "botnet"
    && !(cats.map jsToLower).contains "proxy"
    && (cats.map jsToLower).contains "tor exit node"

theorem deriveThreatTag_snd (tt : String) (c : Nat) (d : Details) (cats : List String) :
    (deriveThreatTag tt c d cats).2 =
      { d with malware := d.malware || hitMalware cats,
               phishing := d.phishing || hitPhishing cats,
               spam := d.spam || hitSpam cats,
               botnet := d.botnet || hitBotnet cats,
               proxy := d.proxy || hitProxy cats,
               tor := d.tor || hitTor cats } := by
  unfold deriveThreatTag hitMalware hitPhishing hitSpam hitBotnet hitProxy hitTor
  dsimp only
  split_ifs <;>
    simp_all only [Bool.not_eq_true, decide_True, decide_False, Bool.true_and,
      Bool.false_and, Bool.and_true, Bool.and_false, Bool.not_true, Bool.not_false,
      Bool.or_true, Bool.or_false, Bool.and_self, Bool.or_self, Details.mk.injEq,
      and_self, decide_eq_true_eq, and_true, true_and]

theorem assessThreat_details_categories (d : Details) (t : ThreatData) :
    (assessThreat d t).details.categories = t.categories.getD [] := by
  unfold assessThreat
  cases t.lastReportedAt <;> simp [deriveThreatTag_snd]

theorem assessThreat_details_lastSeen (d : Details) (t : ThreatData) :
    (assessThreat d t).details.lastSeen =
      match t.lastReportedAt with
      | some l => some l
      | none => d.lastSeen := by
  unfold assessThreat
  cases t.lastReportedAt <;> simp [deriveThreatTag_snd]

theorem assessThreat_threatType_eq (d : Details) (t : ThreatData) :
    (assessThreat d t).threatType =
      (deriveThreatTag (whitelistOrThresholds t).threatType
        (whitelistOrThresholds t).confidence
        { d with categories := t.categories.getD [] } (t.categories.getD [])).1 := rfl

theorem whitelistOrThresholds_safe (t : ThreatData)
    (h : (whitelistOrThresholds t).status = "safe") :
    (whitelistOrThresholds t).confidence = 0 ∧
    ((whitelistOrThresholds t).threatType = "none" ∨
      (whitelistOrThresholds t).threatType = "whitelisted") := by
  unfold whitelistOrThresholds at h ⊢
  dsimp only at h ⊢
  split_ifs at h ⊢ <;> simp_all

theorem whitelistOrThresholds_status_ne_error (t : ThreatData) :
    ¬ (whitelistOrThresholds t).status = "error" := by
  unfold whitelistOrThresholds
  dsimp only
  split_ifs <;> simp

theorem deriveThreatTag_nil (tt : String) (d : Details) :
    (deriveThreatTag tt 0 d []).1 = tt := by
  simp [deriveThreatTag]

/-! ### C6 -/

/-- C6: when `geoData.status = "fail"`, the classifier returns
`status = "error"`, `threatLevel = "unknown"`, `threatType` equal to the
geo error message (`"Geo-IP API Error"` when absent), `confidence = 0`
and `reputation = 0`, and the result does not depend on the threat data
at all: the branch is terminal. -/
theorem c6_geo_fail_short_circuit (ip : String) (g : GeoData)
    (t1 t2 : Option ThreatData) (now : Nat) (h : g.status = some "fail") :
    (deriveIPAnalysisResult ip g t1 now).status = "error" ∧
    (deriveIPAnalysisResult ip g t1 now).threatLevel = "unknown" ∧
    (deriveIPAnalysisResult ip g t1 now).threatType = orDefault g.message "Geo-IP API Error" ∧
    (deriveIPAnalysisResult ip g t1 now).confidence = 0 ∧
    (deriveIPAnalysisResult ip g t1 now).reputation = 0 ∧
    deriveIPAnalysisResult ip g t1 now = deriveIPAnalysisResult ip g t2 now := by
  simp [deriveIPAnalysisResult, h]

/-- C6 witness: the theorem applied at a concrete failing geo lookup. -/
theorem c6_witness :
    (deriveIPAnalysisResult "1.2.3.4" { status := some "fail" }
      (some { abuseConfidenceScore := some 95 }) 0).status = "error" ∧
    deriveIPAnalysisResult "1.2.3.4" { status := some "fail" }
      (some { abuseConfidenceScore := some 95 }) 0
      = deriveIPAnalysisResult "1.2.3.4" { status := some "fail" } none 0 :=
  ⟨(c6_geo_fail_short_circuit "1.2.3.4" { status := some "fail" }
      (some { abuseConfidenceScore := some 95 }) none 0 rfl).1,
   (c6_geo_fail_short_circuit "1.2.3.4" { status := some "fail" }
      (some { abuseConfidenceScore := some 95 }) none 0 rfl).2.2.2.2.2⟩

/-! ### C4 -/

/-- C4: for a non-whitelisted threat input (and a successful geo lookup)
the classifier takes `confidence` from the feed's score (default 0),
`reputation = 100 - confidence`, and maps the confidence to
status/threatLevel by the highest matching threshold
(`≥90 → malicious/critical`, `70..89 → malicious/high`,
`40..69 → suspicious/medium`, `1..39 → suspicious/low`,
`0 → safe/low`); the spec's end-to-end scenario (score 95, categories
`["malware"]`) yields malicious/critical/malware/95/5. -/
theorem c4_confidence_thresholds (ip : String) (g : GeoData) (t : ThreatData) (now : Nat)
    (hg : ¬ g.status = some "fail") (hw : t.isWhitelisted = false) :
    (deriveIPAnalysisResult ip g (some t) now).confidence
      = t.abuseConfidenceScore.getD 0 ∧
    (deriveIPAnalysisResult ip g (some t) now).reputation
      = 100 - (t.abuseConfidenceScore.getD 0 : Int) ∧
    (90 ≤ t.abuseConfidenceScore.getD 0 →
      (deriveIPAnalysisResult ip g (some t) now).status = "malicious" ∧
      (deriveIPAnalysisResult ip g (some t) now).threatLevel = "critical") ∧
    (70 ≤ t.abuseConfidenceScore.getD 0 → t.abuseConfidenceScore.getD 0 < 90 →
      (deriveIPAnalysisResult ip g (some t) now).status = "malicious" ∧
      (deriveIPAnalysisResult ip g (some t) now).threatLevel = "high") ∧
    (40 ≤ t.abuseConfidenceScore.getD 0 → t.abuseConfidenceScore.getD 0 < 70 →
      (deriveIPAnalysisResult ip g (some t) now).status = "suspicious" ∧
      (deriveIPAnalysisResult ip g (some t) now).threatLevel = "medium") ∧
    (0 < t.abuseConfidenceScore.getD 0 → t.abuseConfidenceScore.getD 0 < 40 →
      (deriveIPAnalysisResult ip g (some t) now).status = "suspicious" ∧
      (deriveIPAnalysisResult ip g (some t) now).threatLevel = "low") ∧
    (t.abuseConfidenceScore.getD 0 = 0 →
      (deriveIPAnalysisResult ip g (some t) now).status = "safe" ∧
      (deriveIPAnalysisResult ip g (some t) now).threatLevel = "low") ∧
    ((deriveIPAnalysisResult "1.2.3.4"
        { status := some "success", country := some "US", city := some "Ashburn",
          proxy := false }
        (some { abuseConfidenceScore := some 95, isWhitelisted := false,
                categories := some ["malware"] }) now).status = "malicious" ∧
     (deriveIPAnalysisResult "1.2.3.4"
        { status := some "success", country := some "US", city := some "Ashburn",
          proxy := false }
        (some { abuseConfidenceScore := some 95, isWhitelisted := false,
                categories := some ["malware"] }) now).threatLevel = "critical" ∧
     (deriveIPAnalysisResult "1.2.3.4"
        { status := some "success", country := some "US", city := some "Ashburn",
          proxy := false }
        (some { abuseConfidenceScore := some 95, isWhitelisted := false,
                categories := some ["malware"] }) now).threatType = "malware" ∧
     (deriveIPAnalysisResult "1.2.3.4"
        { status := some "success", country := some "US", city := some "Ashburn",
          proxy := false }
        (some { abuseConfidenceScore := some 95, isWhitelisted := false,
                categories := some ["malware"] }) now).confidence = 95 ∧
     (deriveIPAnalysisResult "1.2.3.4"
        { status := some "success", country := some "US", city := some "Ashburn",
          proxy := false }
        (some { abuseConfidenceScore := some 95, isWhitelisted := false,
                categories := some ["malware"] }) now).reputation = 5) := by
  rw [derive_ok_eq ip g t now hg]
  refine ⟨?_, ?_, ?_, ?_, ?_, ?_, ?_, ⟨rfl, rfl, rfl, rfl, rfl⟩⟩
  · dsimp only
    rw [assessThreat_confidence, whitelistOrThresholds_confidence t hw]
  · dsimp only
    rw [assessThreat_reputation, whitelistOrThresholds_reputation t hw]
  all_goals
    intro h1
    first
      | (intro h2
         dsimp only
         rw [assessThreat_status, assessThreat_threatLevel]
         unfold whitelistOrThresholds
         simp only [hw, Bool.false_eq_true, if_false]
         split_ifs <;> first | exact ⟨rfl, rfl⟩ | (exfalso; omega))
      | (dsimp only
         rw [assessThreat_status, assessThreat_threatLevel]
         unfold whitelistOrThresholds
         simp only [hw, Bool.false_eq_true, if_false]
         split_ifs <;> first | exact ⟨rfl, rfl⟩ | (exfalso; omega))

/-- C4 witness: the theorem applied at the spec's end-to-end scenario. -/
theorem c4_witness :
    (deriveIPAnalysisResult "1.2.3.4" { status := some "success" }
      (some { abuseConfidenceScore := some 95 }) 0).status = "malicious" ∧
    (deriveIPAnalysisResult "1.2.3.4" { status := some "success" }
      (some { abuseConfidenceScore := some 95 }) 0).confidence = 95 :=
  ⟨((c4_confidence_thresholds "1.2.3.4" { status := some "success" }
      { abuseConfidenceScore := some 95 } 0 (by decide) rfl).2.2.1 (by decide)).1,
   (c4_confidence_thresholds "1.2.3.4" { status := some "success" }
      { abuseConfidenceScore := some 95 } 0 (by decide) rfl).1⟩

/-! ### C3 -/

/-- C3: freshness decision.  No cache record: both fetches needed.  A
record present: geo is never refetched, and the threat data is refetched
exactly unless a threat timestamp exists whose age is strictly below 24
hours; in particular a record with no threat timestamp, or one 25 hours
old, needs a threat fetch, while one 23 hours old does not. -/
theorem c3_freshness_gate :
    (∀ now, freshnessGate none now = (true, true)) ∧
    (∀ rec now, (freshnessGate (some rec) now).1 = false) ∧
    (∀ rec now, ((freshnessGate (some rec) now).2 = false ↔
      ∃ ts, rec.threat_cached_at = some ts ∧
        (now : Int) - (ts : Int) < (TWENTY_FOUR_HOURS_MS : Int))) ∧
    (∀ rec now, rec.threat_cached_at = none → (freshnessGate (some rec) now).2 = true) ∧
    (∀ rec (now ts : Nat), rec.threat_cached_at = some ts →
      (now : Int) - (ts : Int) = 25 * 60 * 60 * 1000 →
      (freshnessGate (some rec) now).2 = true) ∧
    (∀ rec (now ts : Nat), rec.threat_cached_at = some ts →
      (now : Int) - (ts : Int) = 23 * 60 * 60 * 1000 →
      (freshnessGate (some rec) now).2 = false) := by
  refine ⟨fun _ => rfl, fun _ _ => rfl, ?_, ?_, ?_, ?_⟩
  · intro rec now
    cases h : rec.threat_cached_at <;> simp [freshnessGate, h]
  · intro rec now h
    simp [freshnessGate, h]
  · intro rec now ts h hage
    simp only [freshnessGate, h, Option.isSome_some, Option.getD_some, Bool.true_and,
      TWENTY_FOUR_HOURS_MS]
    simp only [Bool.not_eq_true', decide_eq_false_iff_not]
    omega
  · intro rec now ts h hage
    simp only [freshnessGate, h, Option.isSome_some, Option.getD_some, Bool.true_and,
      TWENTY_FOUR_HOURS_MS]
    simp only [Bool.not_eq_false', decide_eq_true_eq]
    omega

/-- C3 witness: the theorem applied to concrete records — a threat
timestamp 23 hours old is fresh, a record with no threat timestamp is
stale. -/
theorem c3_witness :
    (freshnessGate
      (some { ip_address := "1.2.3.4", status := "safe", threat_level := "low",
              threat_type := "none", confidence := 0, reputation := 100,
              threat_cached_at := some 277200000 })
      360000000).2 = false ∧
    (freshnessGate
      (some { ip_address := "1.2.3.4", status := "safe", threat_level := "low",
              threat_type := "none", confidence := 0, reputation := 100 })
      0).2 = true :=
  ⟨c3_freshness_gate.2.2.2.2.2 _ 360000000 277200000 rfl (by decide),
   c3_freshness_gate.2.2.2.1 _ 0 rfl⟩

/-! ### C1 -/

/-- C1 counterexample: a whitelisted threat record whose categories list
is `["malware"]` yields `threatType = "malware"`, not `"whitelisted"` —
the category derivation runs after the whitelist branch and overwrites
its threatType, so the override does not short-circuit it. -/
theorem c1_counterexample :
    (deriveIPAnalysisResult "1.2.3.4" { status := some "success" }
      (some { abuseConfidenceScore := some 0, isWhitelisted := true,
              categories := some ["malware"] }) 0).threatType = "malware" ∧
    ¬ (deriveIPAnalysisResult "1.2.3.4" { status := some "success" }
      (some { abuseConfidenceScore := some 0, isWhitelisted := true,
              categories := some ["malware"] }) 0).threatType = "whitelisted" := by
  decide

/-- C1 (amended): for a whitelisted threat record (and successful geo
lookup) the classifier always returns `status = "safe"`,
`threatLevel = "low"`, `confidence = 0` and `reputation = 100`, for every
categories list; `threatType = "whitelisted"` holds when the categories
list is empty (a non-empty list overwrites the threatType with the
category-derived tag). -/
theorem c1_whitelist_override (ip : String) (g : GeoData) (t : ThreatData) (now : Nat)
    (hg : ¬ g.status = some "fail") (hw : t.isWhitelisted = true) :
    (deriveIPAnalysisResult ip g (some t) now).status = "safe" ∧
    (deriveIPAnalysisResult ip g (some t) now).threatLevel = "low" ∧
    (deriveIPAnalysisResult ip g (some t) now).confidence = 0 ∧
    (deriveIPAnalysisResult ip g (some t) now).reputation = 100 ∧
    (t.categories.getD [] = [] →
      (deriveIPAnalysisResult ip g (some t) now).threatType = "whitelisted") := by
  rw [derive_ok_eq ip g t now hg]
  refine ⟨?_, ?_, ?_, ?_, ?_⟩
  · dsimp only
    rw [assessThreat_status, whitelistOrThresholds_wl t hw]
  · dsimp only
    rw [assessThreat_threatLevel, whitelistOrThresholds_wl t hw]
  · dsimp only
    rw [assessThreat_confidence, whitelistOrThresholds_wl t hw]
  · dsimp only
    rw [assessThreat_reputation, whitelistOrThresholds_wl t hw]
  · intro hc
    dsimp only
    rw [assessThreat_threatType_eq, whitelistOrThresholds_wl t hw, hc]
    rfl

/-- C1 witness: the amended theorem applied at a whitelisted record with
no categories. -/
theorem c1_witness :
    (deriveIPAnalysisResult "1.2.3.4" { status := some "success" }
      (some { isWhitelisted := true }) 0).status = "safe" ∧
    (deriveIPAnalysisResult "1.2.3.4" { status := some "success" }
      (some { isWhitelisted := true }) 0).threatType = "whitelisted" :=
  ⟨(c1_whitelist_override "1.2.3.4" { status := some "success" }
      { isWhitelisted := true } 0 (by decide) rfl).1,
   (c1_whitelist_override "1.2.3.4" { status := some "success" }
      { isWhitelisted := true } 0 (by decide) rfl).2.2.2.2 rfl⟩

/-! ### C2 -/

/-- C2 counterexample: (a) a non-whitelisted record with score 0 and
categories `["malware"]` classifies as `status = "safe"` with
`threatType = "malware"`, violating the claimed safe-invariant; (b) on a
failed geo lookup the location is the two-component string
`"Unknown, Unknown"`, not `"Unknown"` as the claim states. -/
theorem c2_counterexample :
    ((deriveIPAnalysisResult "8.8.8.8" { status := some "success" }
        (some { abuseConfidenceScore := some 0, categories := some ["malware"] }) 0).status
      = "safe" ∧
     (deriveIPAnalysisResult "8.8.8.8" { status := some "success" }
        (some { abuseConfidenceScore := some 0, categories := some ["malware"] }) 0).threatType
      = "malware" ∧
     ¬ ((deriveIPAnalysisResult "8.8.8.8" { status := some "success" }
        (some { abuseConfidenceScore := some 0, categories := some ["malware"] }) 0).threatType
          = "none" ∨
        (deriveIPAnalysisResult "8.8.8.8" { status := some "success" }
        (some { abuseConfidenceScore := some 0, categories := some ["malware"] }) 0).threatType
          = "whitelisted")) ∧
    ((deriveIPAnalysisResult "8.8.8.8" { status := some "fail" } none 0).status = "error" ∧
     (deriveIPAnalysisResult "8.8.8.8" { status := some "fail" } none 0).location
      = "Unknown, Unknown" ∧
     ¬ (deriveIPAnalysisResult "8.8.8.8" { status := some "fail" } none 0).location
      = "Unknown") := by
  decide

/-- C2 (amended): every classifier result satisfies: `status = "safe"`
implies `confidence = 0`, and additionally `threatType` is `"none"` or
`"whitelisted"` whenever the stored categories list is empty; and
`status = "error"` implies `confidence = 0`, `reputation = 0`, and the
location/ISP strings are built from the geo fields with a per-component
`"Unknown"` fallback (so `"Unknown, Unknown"` when city and country are
both absent). -/
theorem c2_invariants (ip : String) (g : GeoData) (t : Option ThreatData) (now : Nat) :
    ((deriveIPAnalysisResult ip g t now).status = "safe" →
      (deriveIPAnalysisResult ip g t now).confidence = 0 ∧
      ((deriveIPAnalysisResult ip g t now).details.categories = [] →
        (deriveIPAnalysisResult ip g t now).threatType = "none" ∨
        (deriveIPAnalysisResult ip g t now).threatType = "whitelisted")) ∧
    ((deriveIPAnalysisResult ip g t now).status = "error" →
      (deriveIPAnalysisResult ip g t now).confidence = 0 ∧
      (deriveIPAnalysisResult ip g t now).reputation = 0 ∧
      (deriveIPAnalysisResult ip g t now).location
        = orDefault g.city "Unknown" ++ ", " ++ orDefault g.country "Unknown" ∧
      (deriveIPAnalysisResult ip g t now).isp = orDefault g.isp "Unknown") := by
  by_cases hg : g.status = some "fail"
  · constructor
    · intro hs
      simp [deriveIPAnalysisResult, hg] at hs
    · intro _
      refine ⟨?_, ?_, ?_, ?_⟩ <;> simp [deriveIPAnalysisResult, hg, locationOf]
  · cases t with
    | none =>
      constructor
      · intro hs
        by_cases hp : (g.proxy || g.hosting) = true
        · simp [deriveIPAnalysisResult, hg, hp] at hs
        · constructor
          · simp [deriveIPAnalysisResult, hg, hp]
          · intro _
            left
            simp [deriveIPAnalysisResult, hg, hp]
      · intro hs
        by_cases hp : (g.proxy || g.hosting) = true <;>
          simp [deriveIPAnalysisResult, hg, hp] at hs
    | some td =>
      rw [derive_ok_eq ip g td now hg]
      dsimp only
      constructor
      · intro hs
        rw [assessThreat_status] at hs
        constructor
        · rw [assessThreat_confidence]
          exact (whitelistOrThresholds_safe td hs).1
        · intro hcats
          rw [assessThreat_details_categories] at hcats
          rw [assessThreat_threatType_eq, hcats,
            (whitelistOrThresholds_safe td hs).1, deriveThreatTag_nil]
          exact (whitelistOrThresholds_safe td hs).2
      · intro hs
        rw [assessThreat_status] at hs
        exact absurd hs (whitelistOrThresholds_status_ne_error td)

/-- C2 witness: the amended theorem applied at a concrete safe result and
a concrete failed geo lookup. -/
theorem c2_witness :
    (deriveIPAnalysisResult "1.2.3.4" { status := some "success" } none 0).confidence = 0 ∧
    (deriveIPAnalysisResult "1.2.3.4" { status := some "fail" } none 0).reputation = 0 :=
  ⟨((c2_invariants "1.2.3.4" { status := some "success" } none 0).1 rfl).1,
   ((c2_invariants "1.2.3.4" { status := some "fail" } none 0).2 rfl).2.1⟩

/-! ### C9 -/

/-- C9: the classifier is total and deterministic.  It is embedded as a
pure function of `(ip, geoData, threatData, now)` — `now` being the one
wall-clock read the source performs — so equal inputs give equal results
by construction; this theorem records the non-trivial totality fact that
`lastSeen` is always populated (never null), together with its full
fallback chain: the threat feed's last-report timestamp when present,
else the cached geo query time, else the current wall-clock time. -/
theorem c9_total_deterministic (ip : String) (g : GeoData) (t : Option ThreatData)
    (now : Nat) :
    ((deriveIPAnalysisResult ip g t now).lastSeen).isSome = true ∧
    (∀ td, t = some td → ¬ g.status = some "fail" →
      (deriveIPAnalysisResult ip g t now).lastSeen
        = some (td.lastReportedAt.getD (g.query_time.getD now))) ∧
    ((t = none ∨ g.status = some "fail") →
      (deriveIPAnalysisResult ip g t now).lastSeen = some (g.query_time.getD now)) ∧
    ((t = none ∨ g.status = some "fail") → g.query_time = none →
      (deriveIPAnalysisResult ip g t now).lastSeen = some now) := by
  refine ⟨?_, ?_, ?_, ?_⟩
  · by_cases hg : g.status = some "fail"
    · simp [deriveIPAnalysisResult, hg]
    · cases t with
      | none =>
        by_cases hp : (g.proxy || g.hosting) = true <;>
          simp [deriveIPAnalysisResult, hg, hp]
      | some td =>
        rw [derive_ok_eq ip g td now hg]
        simp
  · intro td ht hg
    subst ht
    rw [derive_ok_eq ip g td now hg]
    dsimp only
    rw [assessThreat_details_lastSeen]
    cases hl : td.lastReportedAt <;> simp [hl, derivedDetails]
  · intro h
    rcases h with h | h
    · subst h
      by_cases hg : g.status = some "fail"
      · simp [deriveIPAnalysisResult, hg, derivedDetails]
      · by_cases hp : (g.proxy || g.hosting) = true <;>
          simp [deriveIPAnalysisResult, hg, hp, derivedDetails]
    · cases t with
      | none => simp [deriveIPAnalysisResult, h, derivedDetails]
      | some td => simp [deriveIPAnalysisResult, h, derivedDetails]
  · intro h hq
    rcases h with h | h
    · subst h
      by_cases hg : g.status = some "fail"
      · simp [deriveIPAnalysisResult, hg, hq, derivedDetails]
      · by_cases hp : (g.proxy || g.hosting) = true <;>
          simp [deriveIPAnalysisResult, hg, hp, hq, derivedDetails]
    · cases t with
      | none => simp [deriveIPAnalysisResult, h, hq, derivedDetails]
      | some td => simp [deriveIPAnalysisResult, h, hq, derivedDetails]

/-- C9 witness: the theorem applied at concrete inputs — the last-report
timestamp wins, and the wall clock is the final fallback. -/
theorem c9_witness :
    (deriveIPAnalysisResult "1.2.3.4" { status := some "success" }
      (some { lastReportedAt := some 7 }) 5).lastSeen = some 7 ∧
    (deriveIPAnalysisResult "1.2.3.4" { status := some "success" } none 5).lastSeen
      = some 5 :=
  ⟨(c9_total_deterministic "1.2.3.4" { status := some "success" }
      (some { lastReportedAt := some 7 }) 5).2.1 { lastReportedAt := some 7 } rfl
      (by decide),
   (c9_total_deterministic "1.2.3.4" { status := some "success" } none 5).2.2.2
      (Or.inl rfl) rfl⟩

/-! ### C5 -/

/-- The category-to-threatType mapping exactly as the claim words it:
membership of the literal tags tested on the categories list as given
(no lowercasing), first hit winning, and — when none match — the first
category with whitespace replaced by underscores.  Used only to exhibit
where this diverges from the code, which lowercases the list first. -/
def claimCategoryTag (cats : List String) : String :=
  if cats.contains "malware" then "malware"
  else if cats.contains "phishing" then "phishing"
  else if cats.contains "spam" then "spam"
  else if cats.contains "botnet" then "botnet"
  else if cats.contains "proxy" then "proxy"
  else if cats.contains "tor exit node" then "tor"
  else match cats.head? with
    | some c => underscoreWs c
    | none => "unknown_category"

/-- The claim's category mapping amended to match the code: the
membership tests and the whitespace-to-underscore fallback both operate
on the lowercased categories list (an empty first category falls back to
`"unknown_category"`); an empty list gives `"generic_suspicious"` when
the confidence is positive and `"none"` otherwise. -/
def specAmendedCategoryTag (cats : List String) (confidence : Nat) : String :=
  let low : List String := cats.map jsToLower
  if low.contains "malware" then "malware"
  else if low.contains "phishing" then "phishing"
  else if low.contains "spam" then "spam"
  else if low.contains "botnet" then "botnet"
  else if low.contains "proxy" then "proxy"
  else if low.contains "tor exit node" then "tor"
  else if ¬ cats = [] then
    match low.head? with
    | some "" => "unknown_category"
    | some c => underscoreWs c
    | none => "unknown_category"
  else if 0 < confidence then "generic_suspicious"
  else "none"

theorem deriveThreatTag_fst_spec (c : Nat) (d : Details) (cats : List String) :
    (deriveThreatTag "none" c d cats).1 = specAmendedCategoryTag cats c := by
  unfold deriveThreatTag specAmendedCategoryTag fallbackCategoryTag
  dsimp only
  cases cats with
  | nil =>
    simp
    split_ifs <;> rfl
  | cons a l =>
    have h0 : (a :: l).length > 0 := by simp
    rw [if_pos h0]
    have hne : ¬ (a :: l) = [] := by simp
    split_ifs <;> simp_all
    split <;> simp_all

theorem assessThreat_details_flags (d : Details) (t : ThreatData) :
    (assessThreat d t).details.malware
      = (d.malware || hitMalware (t.categories.getD [])) ∧
    (assessThreat d t).details.phishing
      = (d.phishing || hitPhishing (t.categories.getD [])) ∧
    (assessThreat d t).details.spam
      = (d.spam || hitSpam (t.categories.getD [])) ∧
    (assessThreat d t).details.botnet
      = (d.botnet || hitBotnet (t.categories.getD [])) ∧
    (assessThreat d t).details.proxy
      = (d.proxy || hitProxy (t.categories.getD [])) ∧
    (assessThreat d t).details.tor
      = (d.tor || hitTor (t.categories.getD [])) := by
  unfold assessThreat
  dsimp only
  cases t.lastReportedAt <;> simp [deriveThreatTag_snd]

/-- C5 counterexample: for categories `["Malware"]` the code lowercases
before matching and returns `threatType = "malware"`, while the claim as
stated (literal membership, fallback without lowercasing) would give
`"Malware"`. -/
theorem c5_counterexample :
    (deriveIPAnalysisResult "9.9.9.9" { status := some "success" }
      (some { abuseConfidenceScore := some 10, categories := some ["Malware"] })
      0).threatType = "malware" ∧
    claimCategoryTag ["Malware"] = "Malware" ∧
    ¬ (deriveIPAnalysisResult "9.9.9.9" { status := some "success" }
      (some { abuseConfidenceScore := some 10, categories := some ["Malware"] })
      0).threatType = claimCategoryTag ["Malware"] := by
  decide

/-- C5 (amended): for a non-whitelisted threat input with a successful
geo lookup, `threatType` is derived by testing membership on the
lowercased categories list in the fixed order malware, phishing, spam,
botnet, proxy, "tor exit node" (tag `tor`), first hit winning; if none
match and the list is non-empty, the tag is the lowercased first category
with whitespace replaced by underscores; if the list is empty the tag is
`"generic_suspicious"` when confidence is positive and stays `"none"`
otherwise (`specAmendedCategoryTag`).  Each precedence hit also sets the
corresponding boolean flag in `details`, and `["spam", "malware"]`
resolves to `"malware"`. -/
theorem c5_category_precedence (ip : String) (g : GeoData) (t : ThreatData) (now : Nat)
    (hg : ¬ g.status = some "fail") (hw : t.isWhitelisted = false) :
    (deriveIPAnalysisResult ip g (some t) now).threatType
      = specAmendedCategoryTag (t.categories.getD []) (t.abuseConfidenceScore.getD 0) ∧
    (hitMalware (t.categories.getD []) = true →
      (deriveIPAnalysisResult ip g (some t) now).details.malware = true) ∧
    (hitPhishing (t.categories.getD []) = true →
      (deriveIPAnalysisResult ip g (some t) now).details.phishing = true) ∧
    (hitSpam (t.categories.getD []) = true →
      (deriveIPAnalysisResult ip g (some t) now).details.spam = true) ∧
    (hitBotnet (t.categories.getD []) = true →
      (deriveIPAnalysisResult ip g (some t) now).details.botnet = true) ∧
    (hitProxy (t.categories.getD []) = true →
      (deriveIPAnalysisResult ip g (some t) now).details.proxy = true) ∧
    (hitTor (t.categories.getD []) = true →
      (deriveIPAnalysisResult ip g (some t) now).details.tor = true) ∧
    (deriveIPAnalysisResult "7.7.7.7" { status := some "success" }
      (some { abuseConfidenceScore := some 10,
              categories := some ["spam", "malware"] }) now).threatType = "malware" := by
  rw [derive_ok_eq ip g t now hg]
  dsimp only
  refine ⟨?_, ?_, ?_, ?_, ?_, ?_, ?_, rfl⟩
  · rw [assessThreat_threatType_eq, whitelistOrThresholds_threatType t hw,
      whitelistOrThresholds_confidence t hw, deriveThreatTag_fst_spec]
  all_goals
    intro hh
    first
      | (rw [(assessThreat_details_flags (derivedDetails g) t).1, hh]; simp [derivedDetails])
      | (rw [(assessThreat_details_flags (derivedDetails g) t).2.1, hh]; simp [derivedDetails])
      | (rw [(assessThreat_details_flags (derivedDetails g) t).2.2.1, hh]; simp [derivedDetails])
      | (rw [(assessThreat_details_flags (derivedDetails g) t).2.2.2.1, hh]; simp [derivedDetails])
      | (rw [(assessThreat_details_flags (derivedDetails g) t).2.2.2.2.1, hh]; simp)
      | (rw [(assessThreat_details_flags (derivedDetails g) t).2.2.2.2.2, hh]; simp)

/-- C5 witness: the amended theorem applied at `["spam", "malware"]`. -/
theorem c5_witness :
    (deriveIPAnalysisResult "7.7.7.7" { status := some "success" }
      (some { abuseConfidenceScore := some 10,
              categories := some ["spam", "malware"] }) 0).threatType
      = specAmendedCategoryTag ["spam", "malware"] 10 ∧
    (deriveIPAnalysisResult "7.7.7.7" { status := some "success" }
      (some { abuseConfidenceScore := some 10,
              categories := some ["spam", "malware"] }) 0).details.malware = true :=
  ⟨(c5_category_precedence "7.7.7.7" { status := some "success" }
      { abuseConfidenceScore := some 10, categories := some ["spam", "malware"] } 0
      (by decide) rfl).1,
   (c5_category_precedence "7.7.7.7" { status := some "success" }
      { abuseConfidenceScore := some 10, categories := some ["spam", "malware"] } 0
      (by decide) rfl).2.1 (by decide)⟩

/-! ### Projection lemmas used for the cache round trip -/

theorem analysisResult_ext (a b : AnalysisResult)
    (h1 : a.ip = b.ip) (h2 : a.status = b.status) (h3 : a.threatLevel = b.threatLevel)
    (h4 : a.threatType = b.threatType) (h5 : a.location = b.location)
    (h6 : a.isp = b.isp) (h7 : a.confidence = b.confidence)
    (h8 : a.details = b.details) (h9 : a.lastSeen = b.lastSeen)
    (h10 : a.reputation = b.reputation) : a = b := by
  cases a; cases b; simp_all

theorem derive_ip_proj (ip : String) (g : GeoData) (t : Option ThreatData) (now : Nat) :
    (deriveIPAnalysisResult ip g t now).ip = ip := by
  by_cases hg : g.status = some "fail"
  · simp [deriveIPAnalysisResult, hg]
  · cases t with
    | none =>
      by_cases hp : (g.proxy || g.hosting) = true <;>
        simp [deriveIPAnalysisResult, hg, hp]
    | some td => rw [derive_ok_eq ip g td now hg]

theorem derive_location_proj (ip : String) (g : GeoData) (t : Option ThreatData)
    (now : Nat) : (deriveIPAnalysisResult ip g t now).location = locationOf g := by
  by_cases hg : g.status = some "fail"
  · simp [deriveIPAnalysisResult, hg]
  · cases t with
    | none =>
      by_cases hp : (g.proxy || g.hosting) = true <;>
        simp [deriveIPAnalysisResult, hg, hp]
    | some td => rw [derive_ok_eq ip g td now hg]

theorem derive_isp_proj (ip : String) (g : GeoData) (t : Option ThreatData)
    (now : Nat) : (deriveIPAnalysisResult ip g t now).isp = orDefault g.isp "Unknown" := by
  by_cases hg : g.status = some "fail"
  · simp [deriveIPAnalysisResult, hg]
  · cases t with
    | none =>
      by_cases hp : (g.proxy || g.hosting) = true <;>
        simp [deriveIPAnalysisResult, hg, hp]
    | some td => rw [derive_ok_eq ip g td now hg]

theorem derive_status_some (ip : String) (g : GeoData) (t : ThreatData) (now : Nat)
    (hg : ¬ g.status = some "fail") :
    (deriveIPAnalysisResult ip g (some t) now).status
      = (whitelistOrThresholds t).status := by
  rw [derive_ok_eq ip g t now hg]
  dsimp only
  rw [assessThreat_status]

theorem derive_threatLevel_some (ip : String) (g : GeoData) (t : ThreatData) (now : Nat)
    (hg : ¬ g.status = some "fail") :
    (deriveIPAnalysisResult ip g (some t) now).threatLevel
      = (whitelistOrThresholds t).threatLevel := by
  rw [derive_ok_eq ip g t now hg]
  dsimp only
  rw [assessThreat_threatLevel]

theorem derive_confidence_some (ip : String) (g : GeoData) (t : ThreatData) (now : Nat)
    (hg : ¬ g.status = some "fail") :
    (deriveIPAnalysisResult ip g (some t) now).confidence
      = (whitelistOrThresholds t).confidence := by
  rw [derive_ok_eq ip g t now hg]
  dsimp only
  rw [assessThreat_confidence]

theorem derive_reputation_some (ip : String) (g : GeoData) (t : ThreatData) (now : Nat)
    (hg : ¬ g.status = some "fail") :
    (deriveIPAnalysisResult ip g (some t) now).reputation
      = (whitelistOrThresholds t).reputation := by
  rw [derive_ok_eq ip g t now hg]
  dsimp only
  rw [assessThreat_reputation]

theorem derive_threatType_some (ip : String) (g : GeoData) (t : ThreatData) (now : Nat)
    (hg : ¬ g.status = some "fail") :
    (deriveIPAnalysisResult ip g (some t) now).threatType
      = (deriveThreatTag (whitelistOrThresholds t).threatType
          (whitelistOrThresholds t).confidence
          { derivedDetails g with categories := t.categories.getD [] }
          (t.categories.getD [])).1 := by
  rw [derive_ok_eq ip g t now hg]
  dsimp only
  rw [assessThreat_threatType_eq]

theorem derive_details_some (ip : String) (g : GeoData) (t : ThreatData) (now : Nat)
    (hg : ¬ g.status = some "fail") :
    (deriveIPAnalysisResult ip g (some t) now).details
      = (assessThreat (derivedDetails g) t).details := by
  rw [derive_ok_eq ip g t now hg]

theorem derive_lastSeen_some (ip : String) (g : GeoData) (t : ThreatData) (now : Nat)
    (hg : ¬ g.status = some "fail") :
    (deriveIPAnalysisResult ip g (some t) now).lastSeen
      = some ((assessThreat (derivedDetails g) t).details.lastSeen.getD
          (g.query_time.getD now)) := by
  rw [derive_ok_eq ip g t now hg]

/-! ### C10 -/

/-- C10: every successfully processed IP — whether its data came from the
cache (both fetches skipped) or from fresh fetches (including the very
first insert of an unseen IP) — writes a cache row whose geo timestamp
(`query_time`) and threat timestamp (`threat_cached_at`) are both the
current time, with last-write-wins semantics: the stored row is exactly
`writeCacheRecord` of the new values, and rows of other IPs are
untouched. -/
theorem c10_upsert_refreshes_timestamps (env : Env) (store : Store) (ip : String)
    (hsel : env.selectFails ip = false) (hins : env.insertFails ip = false) :
    (∀ rec, store ip = some rec →
      (stepIP env store ip).2 ip
        = some (writeCacheRecord ip (reconstructGeo ip rec)
            (deriveIPAnalysisResult ip (reconstructGeo ip rec)
              (if (freshnessGate (some rec) env.now).2 then env.threatFetch ip
               else some (reconstructThreat rec)) env.now) env.now) ∧
      ∃ rec1, (stepIP env store ip).2 ip = some rec1 ∧
        rec1.query_time = some env.now ∧ rec1.threat_cached_at = some env.now) ∧
    (store ip = none → ∀ g, env.geoFetch ip = some g → ¬ g.status = some "fail" →
      ∃ rec1, (stepIP env store ip).2 ip = some rec1 ∧
        rec1.query_time = some env.now ∧ rec1.threat_cached_at = some env.now) ∧
    (∀ k, ¬ k = ip → (stepIP env store ip).2 k = store k) := by
  refine ⟨?_, ?_, ?_⟩
  · intro rec hrec
    constructor
    · simp [stepIP, hsel, hrec, hins, upsertCache]
    · exact ⟨writeCacheRecord ip (reconstructGeo ip rec)
        (deriveIPAnalysisResult ip (reconstructGeo ip rec)
          (if (freshnessGate (some rec) env.now).2 then env.threatFetch ip
           else some (reconstructThreat rec)) env.now) env.now,
        by simp [stepIP, hsel, hrec, hins, upsertCache], rfl, rfl⟩
  · intro hrec g hgf hgs
    exact ⟨writeCacheRecord ip g
        (deriveIPAnalysisResult ip g (env.threatFetch ip) env.now) env.now,
      by simp [stepIP, hsel, hrec, hgf, hgs, hins, upsertCache], rfl, rfl⟩
  · intro k hk
    unfold stepIP
    simp only [hsel, Bool.false_eq_true, if_false]
    cases hrec : store ip with
    | some rec => simp [hins, upsertCache, hk]
    | none =>
      cases hgf : env.geoFetch ip with
      | none => rfl
      | some g =>
        by_cases hgs : g.status = some "fail"
        · simp [hgs]
        · simp [hgs, hins, upsertCache, hk]

/-- C10 witness: the theorem applied at a first insert of an unseen IP
(both timestamps stamped with the current time 42). -/
theorem c10_witness :
    ∃ rec1,
      (stepIP
        { geoFetch := fun _ => some { status := some "success" },
          threatFetch := fun _ => none, selectFails := fun _ => false,
          insertFails := fun _ => false, now := 42 }
        (fun _ => none) "1.2.3.4").2 "1.2.3.4" = some rec1 ∧
      rec1.query_time = some 42 ∧ rec1.threat_cached_at = some 42 :=
  (c10_upsert_refreshes_timestamps
    { geoFetch := fun _ => some { status := some "success" },
      threatFetch := fun _ => none, selectFails := fun _ => false,
      insertFails := fun _ => false, now := 42 }
    (fun _ => none) "1.2.3.4" rfl rfl).2.1 rfl
    { status := some "success" } rfl (by decide)

/-! ### C8 -/

/-- C8: the claim of exactly one result per input IP fails when the cache
INSERT rejects: the endpoint pushes the derived result before the
write, and the per-IP catch then pushes a second, generic error result
for the same IP — so the single input `["1.2.3.4"]` yields a response of
length 2.  (The spec's one-result-per-IP contract is the clear intent;
the double push is a slip in the code.) -/
theorem c8_double_result_on_insert_failure :
    (analyzeIPs
      { geoFetch := fun _ => some { status := some "success" },
        threatFetch := fun _ => none, selectFails := fun _ => false,
        insertFails := fun _ => true, now := 0 }
      (fun _ => none) (some ["1.2.3.4"])).1
      = Except.ok [deriveIPAnalysisResult "1.2.3.4" { status := some "success" } none 0,
                   genericErrorResult "1.2.3.4"] ∧
    [deriveIPAnalysisResult "1.2.3.4" { status := some "success" } none 0,
     genericErrorResult "1.2.3.4"].length = 2 ∧
    (analyzeIPs
      { geoFetch := fun _ => some { status := some "success" },
        threatFetch := fun _ => none, selectFails := fun _ => false,
        insertFails := fun _ => true, now := 0 }
      (fun _ => none) none).1
      = Except.error "Please provide an array of IP addresses." := by
  exact ⟨rfl, rfl, rfl⟩

/-! ### C7 -/

/-- First-pass geo input for the round-trip counterexample: a successful
lookup flagged as a hosting provider. -/
def hostingGeo : GeoData :=
  { status := some "success", country := some "US", regionName := some "VA",
    city := some "Ashburn", isp := some "ISP", hosting := true,
    query := some "1.2.3.4" }

/-- First-pass result for the counterexample: no threat data available,
so the geo-only heuristic fires (`threatType = "hosting"`). -/
def hostingFirstPass : AnalysisResult :=
  deriveIPAnalysisResult "1.2.3.4" hostingGeo none 0

/-- The cache row the endpoint writes for that first pass. -/
def hostingCacheRow : CacheRecord :=
  writeCacheRecord "1.2.3.4" hostingGeo hostingFirstPass 0

/-- Second pass one hour later: the threat timestamp is fresh, so both
inputs are reconstructed from the cache row. -/
def hostingSecondPass : AnalysisResult :=
  deriveIPAnalysisResult "1.2.3.4" (reconstructGeo "1.2.3.4" hostingCacheRow)
    (some (reconstructThreat hostingCacheRow)) 3600000

/-- C7 counterexample: a cache record written from a pass with no threat
data (geo hosting heuristic, `threatType = "hosting"`, confidence 50)
is reconstructed one hour later — within the freshness window — as a
synthetic threat record with score 50 and empty categories, and the
re-run produces `threatType = "generic_suspicious"`: the round trip is
not byte-for-byte (and the hosting flag itself cannot round-trip, since
reconstruction hardcodes `hosting := false`). -/
theorem c7_counterexample :
    hostingFirstPass.threatType = "hosting" ∧
    (freshnessGate (some hostingCacheRow) 3600000).2 = false ∧
    hostingSecondPass.threatType = "generic_suspicious" ∧
    ¬ hostingSecondPass = hostingFirstPass := by
  decide

/-- C7 (amended): the cache round trip is exact for records written from
a pass where threat data was present and carried a last-report
timestamp, provided the stored `threat_type` encodes the whitelist flag
faithfully (`threatType = "whitelisted"` exactly when the feed was
whitelisted) and the IP is not the literal string `"Tor"`: re-running
within the 24-hour freshness window on the reconstructed inputs
reproduces the first AnalysisResult identically — including `lastSeen`,
the whitelist handling and the categories list. -/
theorem c7_cache_roundtrip (ip : String) (g : GeoData) (t : ThreatData)
    (now1 now2 : Nat)
    (hg : ¬ g.status = some "fail")
    (hip : ¬ ip = "Tor")
    (hl : t.lastReportedAt.isSome = true)
    (hwl : t.isWhitelisted = true ↔
      (deriveIPAnalysisResult ip g (some t) now1).threatType = "whitelisted")
    (hfresh : (now2 : Int) - (now1 : Int) < (TWENTY_FOUR_HOURS_MS : Int)) :
    (freshnessGate
      (some (writeCacheRecord ip g (deriveIPAnalysisResult ip g (some t) now1) now1))
      now2).2 = false ∧
    deriveIPAnalysisResult ip
      (reconstructGeo ip
        (writeCacheRecord ip g (deriveIPAnalysisResult ip g (some t) now1) now1))
      (some (reconstructThreat
        (writeCacheRecord ip g (deriveIPAnalysisResult ip g (some t) now1) now1)))
      now2
    = deriveIPAnalysisResult ip g (some t) now1 := by
  obtain ⟨l, hlv⟩ := Option.isSome_iff_exists.mp hl
  constructor
  · simp only [TWENTY_FOUR_HOURS_MS] at hfresh
    simp [freshnessGate, writeCacheRecord, TWENTY_FOUR_HOURS_MS]
    omega
  · have hdet1 : (deriveIPAnalysisResult ip g (some t) now1).details
        = { (deriveThreatTag (whitelistOrThresholds t).threatType
              (whitelistOrThresholds t).confidence
              { derivedDetails g with categories := t.categories.getD [] }
              (t.categories.getD [])).2 with lastSeen := some l } := by
      rw [derive_details_some ip g t now1 hg]
      unfold assessThreat
      dsimp only
      rw [hlv]
    have hls1 : (deriveIPAnalysisResult ip g (some t) now1).lastSeen = some l := by
      rw [derive_lastSeen_some ip g t now1 hg, assessThreat_details_lastSeen, hlv]
      rfl
    have hwt : whitelistOrThresholds (reconstructThreat
        (writeCacheRecord ip g (deriveIPAnalysisResult ip g (some t) now1) now1))
        = whitelistOrThresholds t := by
      cases hw : t.isWhitelisted with
      | true =>
        have htype := hwl.mp hw
        have hiw : (reconstructThreat (writeCacheRecord ip g
            (deriveIPAnalysisResult ip g (some t) now1) now1)).isWhitelisted = true := by
          simp [reconstructThreat, writeCacheRecord, htype]
        rw [whitelistOrThresholds_wl _ hiw, whitelistOrThresholds_wl t hw]
      | false =>
        have htype : ¬ (deriveIPAnalysisResult ip g (some t) now1).threatType
            = "whitelisted" := by
          intro h
          have h2 := hwl.mpr h
          rw [hw] at h2
          exact Bool.false_ne_true h2
        have hiw : (reconstructThreat (writeCacheRecord ip g
            (deriveIPAnalysisResult ip g (some t) now1) now1)).isWhitelisted = false := by
          simp [reconstructThreat, writeCacheRecord, htype]
        apply whitelistOrThresholds_congr
        · rw [hiw, hw]
        · show (some (deriveIPAnalysisResult ip g (some t) now1).confidence).getD 0
            = t.abuseConfidenceScore.getD 0
          rw [Option.getD_some, derive_confidence_some ip g t now1 hg,
            whitelistOrThresholds_confidence t hw]
    have hcats : (reconstructThreat (writeCacheRecord ip g
        (deriveIPAnalysisResult ip g (some t) now1) now1)).categories.getD []
        = t.categories.getD [] := by
      show (some ((deriveIPAnalysisResult ip g (some t) now1).details.categories)).getD []
        = t.categories.getD []
      rw [Option.getD_some, derive_details_some ip g t now1 hg,
        assessThreat_details_categories]
    have hl2 : (reconstructThreat (writeCacheRecord ip g
        (deriveIPAnalysisResult ip g (some t) now1) now1)).lastReportedAt = some l := by
      show (deriveIPAnalysisResult ip g (some t) now1).lastSeen = some l
      exact hls1
    have hg2 : ¬ (reconstructGeo ip (writeCacheRecord ip g
        (deriveIPAnalysisResult ip g (some t) now1) now1)).status = some "fail" := by
      simp [reconstructGeo]
    have hdd : derivedDetails (reconstructGeo ip (writeCacheRecord ip g
        (deriveIPAnalysisResult ip g (some t) now1) now1))
        = { malware := false, phishing := false, spam := false, botnet := false,
            proxy := (deriveIPAnalysisResult ip g (some t) now1).details.proxy,
            tor := (deriveIPAnalysisResult ip g (some t) now1).details.tor,
            categories := [], lastSeen := none } := by
      unfold derivedDetails reconstructGeo
      dsimp only
      cases htor : (deriveIPAnalysisResult ip g (some t) now1).details.tor <;>
        simp [writeCacheRecord, htor, hip]
    apply analysisResult_ext
    · rw [derive_ip_proj, derive_ip_proj]
    · rw [derive_status_some _ _ _ _ hg2, derive_status_some ip g t now1 hg, hwt]
    · rw [derive_threatLevel_some _ _ _ _ hg2, derive_threatLevel_some ip g t now1 hg,
        hwt]
    · rw [derive_threatType_some _ _ _ _ hg2, derive_threatType_some ip g t now1 hg,
        hwt, hcats]
      exact deriveThreatTag_fst_congr _ _ _ _ _
    · rw [derive_location_proj, derive_location_proj]
      rfl
    · rw [derive_isp_proj, derive_isp_proj]
      rfl
    · rw [derive_confidence_some _ _ _ _ hg2, derive_confidence_some ip g t now1 hg, hwt]
    · rw [derive_details_some _ _ _ _ hg2, derive_details_some ip g t now1 hg]
      unfold assessThreat
      dsimp only
      rw [hlv, hl2, hwt, hcats, hdd, hdet1]
      simp [deriveThreatTag_snd, derivedDetails, Details.mk.injEq, Bool.or_assoc]
    · rw [derive_lastSeen_some _ _ _ _ hg2, assessThreat_details_lastSeen, hl2, hls1]
      rfl
    · rw [derive_reputation_some _ _ _ _ hg2, derive_reputation_some ip g t now1 hg, hwt]

/-- C7 witness: the amended theorem applied at a concrete malicious
record (score 95, categories `["malware"]`, last report at 10), rerun
one hour after the write. -/
theorem c7_witness :
    deriveIPAnalysisResult "1.2.3.4"
      (reconstructGeo "1.2.3.4" (writeCacheRecord "1.2.3.4"
        { status := some "success", city := some "Ashburn" }
        (deriveIPAnalysisResult "1.2.3.4"
          { status := some "success", city := some "Ashburn" }
          (some { abuseConfidenceScore := some 95, categories := some ["malware"],
                  lastReportedAt := some 10 }) 0) 0))
      (some (reconstructThreat (writeCacheRecord "1.2.3.4"
        { status := some "success", city := some "Ashburn" }
        (deriveIPAnalysisResult "1.2.3.4"
          { status := some "success", city := some "Ashburn" }
          (some { abuseConfidenceScore := some 95, categories := some ["malware"],
                  lastReportedAt := some 10 }) 0) 0)))
      3600000
    = deriveIPAnalysisResult "1.2.3.4"
        { status := some "success", city := some "Ashburn" }
        (some { abuseConfidenceScore := some 95, categories := some ["malware"],
                lastReportedAt := some 10 }) 0 :=
  (c7_cache_roundtrip "1.2.3.4" { status := some "success", city := some "Ashburn" }
    { abuseConfidenceScore := some 95, categories := some ["malware"],
      lastReportedAt := some 10 } 0 3600000
    (by decide) (by decide) rfl (by decide) (by decide)).2

-- Sanity checks on concrete inputs (spec §8 end-to-end scenario).
example :
    (deriveIPAnalysisResult "1.2.3.4"
      { status := some "success", country := some "US", city := some "Ashburn" }
      (some { abuseConfidenceScore := some 95, isWhitelisted := false,
              categories := some ["malware"] }) 0).status = "malicious" := by decide

example :
    (deriveIPAnalysisResult "1.2.3.4"
      { status := some "success" }
      (some { abuseConfidenceScore := some 0, isWhitelisted := true,
              categories := some ["malware"] }) 0).threatType = "malware" := by decide
